import Mathlib

/-!
Verification of the water-calibration paradigm (`src/water_calibration.py`)
against its specification.

The repository ships one paradigm file; the `phonotaxis` library it drives
(`statematrix`, `controller`, `emulator`) is not part of the sources, so those
collaborators are modelled from the specification where a claim needs them,
each such definition marked `Modelled from the spec:` in its doc comment.
Durations are embedded as rationals.
-/

namespace WaterCalibration

/-- A single state of a trial automaton, as built by `StateMatrix.add_state`:
a name, a timer duration, a transition table keyed by event labels, and the
output sets asserted / cleared on entry. -/
structure SMState where
  name : String
  statetimer : ℚ
  transitions : List (String × String)
  outputsOn : List String
  outputsOff : List String
deriving DecidableEq

/-- The StateMatrix: declared input and output labels plus the ordered list of
states added since the last `reset_transitions`. -/
structure StateMatrix where
  inputs : List String
  outputs : List String
  states : List SMState
deriving DecidableEq

/-- Operation reset_transitions: clears all states and transitions, keeping the
declared input/output labels. -/
def StateMatrix.reset_transitions (sm : StateMatrix) : StateMatrix :=
  { sm with states := [] }

/-- Operation add_state: appends a new state to the matrix. -/
def StateMatrix.add_state (sm : StateMatrix) (name : String) (statetimer : ℚ)
    (transitions : List (String × String)) (outputsOn : List String)
    (outputsOff : List String) : StateMatrix :=
  { sm with states := sm.states ++ [⟨name, statetimer, transitions, outputsOn, outputsOff⟩] }

/-- The four-state trial automaton built by `Task.prepare_next_trial`
(src/water_calibration.py lines 133-160): reset, then the four `add_state`
calls with the task's current parameter values. -/
def buildTrialMatrix (sm : StateMatrix) (leftDuration rightDuration interValveDelay : ℚ) :
    StateMatrix :=
  let sm := sm.reset_transitions
  let sm := sm.add_state "left_valve_on" leftDuration
      [("Tup", "left_valve_off")] ["ValveL"] ["ValveR"]
  let sm := sm.add_state "left_valve_off" interValveDelay
      [("Tup", "right_valve_on")] [] ["ValveL", "ValveR"]
  let sm := sm.add_state "right_valve_on" rightDuration
      [("Tup", "right_valve_off")] ["ValveR"] ["ValveL"]
  let sm := sm.add_state "right_valve_off" interValveDelay
      [("Tup", "END")] [] ["ValveL", "ValveR"]
  sm

/-- Observable calls the task makes on its collaborators while preparing a
trial, in program order. -/
inductive Effect where
  | update_history (trial : Nat)
  | controller_stop
  | set_state_matrix (sm : StateMatrix)
  | ready_to_start_trial
deriving DecidableEq

/-- The mutable state of the `Task` window that the claims talk about:
the session flag, completed-trial counter, the configured `maxTrials`,
the three calibration parameters, the state-matrix attribute `self.sm`,
the parameter history, the session-duration ceiling handed to the
controller, and the controller's stopped flag. -/
structure TaskState where
  session_running : Bool
  trials_completed : Nat
  maxTrials : Nat
  leftValveDuration : ℚ
  rightValveDuration : ℚ
  interValveDelay : ℚ
  sm : StateMatrix
  history : List Nat
  session_duration : Option Nat
  controller_stopped : Bool
deriving DecidableEq

/-- The task state right after `Task.__init__`: session not running,
`trials_completed = 0`, `maxTrials = 100`, parameter defaults 0.1 s, 0.1 s,
0.5 s, and a fresh StateMatrix over the configured inputs/outputs. -/
def initTask (inputs outputs : List String) : TaskState :=
  { session_running := false
    trials_completed := 0
    maxTrials := 100
    leftValveDuration := 1/10
    rightValveDuration := 1/10
    interValveDelay := 1/2
    sm := ⟨inputs, outputs, []⟩
    history := []
    session_duration := none
    controller_stopped := false }

/-- Handler Task.start_session (lines 95-105): when the session is not running,
set the session duration ceiling to 3600 s, mark the session running and
reset `trials_completed`; otherwise do nothing. -/
def start_session (ts : TaskState) : TaskState :=
  if ts.session_running then ts
  else
    { ts with
      session_duration := some 3600
      session_running := true
      trials_completed := 0 }

/-- Handler Task.session_stopped (lines 107-110): clear the running flag and report
the number of completed trials in the log message. -/
def session_stopped (ts : TaskState) : TaskState × Nat :=
  ({ ts with session_running := false }, ts.trials_completed)

/-- Handler Task.prepare_next_trial (lines 112-166): record history and bump
`trials_completed` when `next_trial > 0`; stop the controller when
`next_trial >= maxTrials`; otherwise rebuild the state matrix, hand it to the
controller and acknowledge readiness. Returns the new task state together
with the ordered list of collaborator calls. -/
def prepare_next_trial (ts : TaskState) (next_trial : Nat) : TaskState × List Effect :=
  let n_trials := ts.maxTrials
  let ts1 :=
    if next_trial > 0 then
      { ts with
        history := ts.history ++ [next_trial - 1]
        trials_completed := next_trial }
    else ts
  let effs1 : List Effect :=
    if next_trial > 0 then [Effect.update_history (next_trial - 1)] else []
  if next_trial ≥ n_trials then
    ({ ts1 with controller_stopped := true }, effs1 ++ [Effect.controller_stop])
  else
    let sm' := buildTrialMatrix ts1.sm ts1.leftValveDuration ts1.rightValveDuration
        ts1.interValveDelay
    ({ ts1 with sm := sm' },
      effs1 ++ [Effect.set_state_matrix sm', Effect.ready_to_start_trial])

/-- Modelled from the spec: finalize-time validation of a StateMatrix
(`finalize()` in §4.1 and §8; the `phonotaxis.statematrix` implementation is
not in the sources). It checks that state names are pairwise distinct, that
every transition target resolves to a declared state or the terminal marker
"END", that every transition event label is "Tup" or a declared input label,
and that every referenced output is a declared output label. -/
def StateMatrix.finalizeOk (sm : StateMatrix) : Bool :=
  let names := sm.states.map SMState.name
  decide names.Nodup &&
  sm.states.all (fun st =>
    st.transitions.all (fun tr =>
      (tr.2 == "END" || names.contains tr.2) &&
      (tr.1 == "Tup" || sm.inputs.contains tr.1)) &&
    (st.outputsOn ++ st.outputsOff).all (fun o => sm.outputs.contains o))

/-- A maximal interval of the emulated run during which one state is active:
the state's name, the entry and exit times, and the set of outputs that are
on throughout the interval (entry actions already applied). -/
structure Segment where
  stateName : String
  t0 : ℚ
  t1 : ℚ
  outs : List String
deriving DecidableEq

/-- Modelled from the spec: entry actions of a state (§4.2) - assert all
`outputsOn`, clear all `outputsOff`, clear winning when an output appears in
both. `cur` is the set of outputs currently on. -/
def applyEntry (cur : List String) (st : SMState) : List String :=
  (cur ++ st.outputsOn).filter (fun o => !st.outputsOff.contains o)

/-- The transition target of a state for a given event label, if any. -/
def lookupTrans (st : SMState) (ev : String) : Option String :=
  (st.transitions.find? (fun tr => tr.1 == ev)).map Prod.snd

/-- Modelled from the spec: the Emulator's event loop (§4.2), restricted to
timer-driven runs (no hardware input events, as in this paradigm): starting
from state `cur` at time `t` with outputs `outs` on, apply the entry actions,
wait the state's timer, fire "Tup" and follow its transition until "END".
Returns the list of activity segments, the final time, and whether "END" was
reached within `fuel` steps. -/
def emuRun : Nat → StateMatrix → String → ℚ → List String → List Segment × ℚ × Bool
  | 0, _, _, t, _ => ([], t, false)
  | fuel + 1, sm, cur, t, outs =>
    match sm.states.find? (fun st => st.name == cur) with
    | none => ([], t, false)
    | some st =>
      let outs' := applyEntry outs st
      let t' := t + st.statetimer
      let seg : Segment := ⟨st.name, t, t', outs'⟩
      match lookupTrans st "Tup" with
      | none => ([seg], t', false)
      | some tgt =>
        if tgt = "END" then ([seg], t', true)
        else
          let r := emuRun fuel sm tgt t' outs'
          (seg :: r.1, r.2.1, r.2.2)

/-- Modelled from the spec: a full emulator run of a matrix (§4.2) - execution
begins at the entry state, the first state added after the last
`reset_transitions`, at time 0 with all outputs cleared. -/
def runMatrix (fuel : Nat) (sm : StateMatrix) : List Segment × ℚ × Bool :=
  match sm.states with
  | [] => ([], 0, false)
  | st :: _ => emuRun fuel sm st.name 0 []

/-- Whether output `o` is asserted at time `t` of a run: true exactly when
the segment whose half-open interval [t0, t1) contains `t` lists `o` among
the outputs that are on. -/
def outputOnAt (segs : List Segment) (o : String) (t : ℚ) : Bool :=
  match segs.find? (fun s => decide (s.t0 ≤ t) && decide (t < s.t1)) with
  | some s => s.outs.contains o
  | none => false

/-- Modelled from the spec: the SessionController's trial loop (§4.3; the
`phonotaxis.controller` implementation is not in the sources). After start it
requests trial 0 from the task's `prepare_next_trial`; whenever the task
acknowledges readiness the trial runs to completion and the controller
requests the next index; when the task calls `stop()` the controller emits
`session_stopped`, which runs the task handler and reports
`trials_completed`. Returns the final task state, the trace of
(requested index, collaborator calls) pairs, and the reported count. -/
def sessionLoop : Nat → TaskState → Nat → TaskState × List (Nat × List Effect) × Option Nat
  | 0, ts, _ => (ts, [], none)
  | fuel + 1, ts, idx =>
    let p := prepare_next_trial ts idx
    if Effect.controller_stop ∈ p.2 then
      let s := session_stopped p.1
      (s.1, [(idx, p.2)], some s.2)
    else
      let r := sessionLoop fuel p.1 (idx + 1)
      (r.1, (idx, p.2) :: r.2.1, r.2.2)

/-- A whole session: `SessionController.start()` fires `session_started`,
the task's `start_session` handler runs, and the controller then requests
trials starting at index 0 until stopped. The fuel `maxTrials + 1` covers the
`maxTrials` started trials plus the final stopping request. -/
def runSession (ts : TaskState) : TaskState × List (Nat × List Effect) × Option Nat :=
  let ts0 := start_session ts
  sessionLoop (ts0.maxTrials + 1) ts0 0

/-- The indices of the requests that led to a started trial: those whose
collaborator calls include `ready_to_start_trial`. -/
def startedIndices (trace : List (Nat × List Effect)) : List Nat :=
  (trace.filter (fun e => decide (Effect.ready_to_start_trial ∈ e.2))).map Prod.fst

/-- Predicate picking out the parameter-history recordings among the
collaborator calls. -/
def isHistoryCall : Effect → Bool
  | Effect.update_history _ => true
  | _ => false

/-- The first trial state built with the default parameter values. -/
def calibState1 : SMState :=
  ⟨"left_valve_on", 1/10, [("Tup", "left_valve_off")], ["ValveL"], ["ValveR"]⟩

/-- The second trial state built with the default parameter values. -/
def calibState2 : SMState :=
  ⟨"left_valve_off", 1/2, [("Tup", "right_valve_on")], [], ["ValveL", "ValveR"]⟩

/-- The third trial state built with the default parameter values. -/
def calibState3 : SMState :=
  ⟨"right_valve_on", 1/10, [("Tup", "right_valve_off")], ["ValveR"], ["ValveL"]⟩

/-- The fourth trial state built with the default parameter values. -/
def calibState4 : SMState :=
  ⟨"right_valve_off", 1/2, [("Tup", "END")], [], ["ValveL", "ValveR"]⟩

/-- The activity timeline of one default-parameter trial: ValveL on during
[0, 0.1) s, both valves off during [0.1, 0.6) s, ValveR on during
[0.6, 0.7) s, both off during [0.7, 1.2) s. -/
def calibSegs : List Segment :=
  [⟨"left_valve_on", 0, 1/10, ["ValveL"]⟩,
   ⟨"left_valve_off", 1/10, 6/10, []⟩,
   ⟨"right_valve_on", 6/10, 7/10, ["ValveR"]⟩,
   ⟨"right_valve_off", 7/10, 12/10, []⟩]

/-- A concrete task state for instantiating theorems: the state right after
window construction, with the input/output labels of the spec scenario. -/
def tsDemo : TaskState := initTask ["Cin", "Cout"] ["ValveL", "ValveR"]

/-- The demo task configured for a two-trial session. -/
def tsTwo : TaskState := { tsDemo with maxTrials := 2 }

/-- The demo task with a session already running. -/
def tsRun : TaskState := { tsDemo with session_running := true }

/-- Preparing a trial never changes the configured maximum trial count. -/
lemma prepare_maxTrials (ts : TaskState) (n : Nat) :
    (prepare_next_trial ts n).1.maxTrials = ts.maxTrials := by
  unfold prepare_next_trial
  dsimp only
  split_ifs <;> rfl

/-- The stop call appears among the collaborator calls of
`prepare_next_trial` exactly when the index has reached `maxTrials`. -/
lemma prepare_stop_iff (ts : TaskState) (n : Nat) :
    Effect.controller_stop ∈ (prepare_next_trial ts n).2 ↔ ts.maxTrials ≤ n := by
  unfold prepare_next_trial
  dsimp only
  split_ifs <;> simp_all <;> omega

/-- The readiness acknowledgment appears among the collaborator calls of
`prepare_next_trial` exactly when the index is below `maxTrials`. -/
lemma prepare_ready_iff (ts : TaskState) (n : Nat) :
    Effect.ready_to_start_trial ∈ (prepare_next_trial ts n).2 ↔ n < ts.maxTrials := by
  unfold prepare_next_trial
  dsimp only
  split_ifs <;> simp_all <;> omega

/-- For a positive index, `prepare_next_trial` records the index as the
completed-trial count. -/
lemma prepare_completed_pos (ts : TaskState) (n : Nat) (h : 0 < n) :
    (prepare_next_trial ts n).1.trials_completed = n := by
  unfold prepare_next_trial
  dsimp only
  split_ifs <;> simp_all

/-- Once the index reaches `maxTrials`, `prepare_next_trial` leaves the
controller stopped. -/
lemma prepare_stopped_of_ge (ts : TaskState) (n : Nat) (h : ts.maxTrials ≤ n) :
    (prepare_next_trial ts n).1.controller_stopped = true := by
  unfold prepare_next_trial
  dsimp only
  split_ifs <;> simp_all

/-- Unfolding lemma for one emulator step whose "Tup" transition continues to
another state. -/
lemma emuRun_step (fuel : Nat) (sm : StateMatrix) (cur : String) (t : ℚ) (outs : List String)
    (st : SMState) (hfind : sm.states.find? (fun s => s.name == cur) = some st)
    (tgt : String) (htr : lookupTrans st "Tup" = some tgt) (hne : tgt ≠ "END") :
    emuRun (fuel + 1) sm cur t outs =
      ((⟨st.name, t, t + st.statetimer, applyEntry outs st⟩ : Segment) ::
        (emuRun fuel sm tgt (t + st.statetimer) (applyEntry outs st)).1,
       (emuRun fuel sm tgt (t + st.statetimer) (applyEntry outs st)).2) := by
  simp [emuRun, hfind, htr, hne]

/-- Unfolding lemma for the final emulator step, whose "Tup" transition
targets "END". -/
lemma emuRun_last (fuel : Nat) (sm : StateMatrix) (cur : String) (t : ℚ) (outs : List String)
    (st : SMState) (hfind : sm.states.find? (fun s => s.name == cur) = some st)
    (htr : lookupTrans st "Tup" = some "END") :
    emuRun (fuel + 1) sm cur t outs =
      ([⟨st.name, t, t + st.statetimer, applyEntry outs st⟩], t + st.statetimer, true) := by
  simp [emuRun, hfind, htr]

/-- The emulated run of a default-parameter trial matrix: it produces the
four calibration segments, terminates successfully, and does so at 1.2 s,
whatever matrix the build started from. -/
lemma calib_run_eq (sm : StateMatrix) :
    runMatrix 10 (buildTrialMatrix sm (1/10) (1/10) (1/2)) = (calibSegs, 12/10, true) := by
  have h0 : runMatrix 10 (buildTrialMatrix sm (1/10) (1/10) (1/2)) =
      emuRun 10 (buildTrialMatrix sm (1/10) (1/10) (1/2)) "left_valve_on" 0 [] := rfl
  rw [h0, show (10 : Nat) = 9 + 1 from rfl,
    emuRun_step 9 (buildTrialMatrix sm (1/10) (1/10) (1/2)) "left_valve_on" 0 []
      calibState1 rfl "left_valve_off" rfl (by decide)]
  rw [show (9 : Nat) = 8 + 1 from rfl,
    emuRun_step 8 (buildTrialMatrix sm (1/10) (1/10) (1/2)) "left_valve_off" _ _
      calibState2 rfl "right_valve_on" rfl (by decide)]
  rw [show (8 : Nat) = 7 + 1 from rfl,
    emuRun_step 7 (buildTrialMatrix sm (1/10) (1/10) (1/2)) "right_valve_on" _ _
      calibState3 rfl "right_valve_off" rfl (by decide)]
  rw [show (7 : Nat) = 6 + 1 from rfl,
    emuRun_last 6 (buildTrialMatrix sm (1/10) (1/10) (1/2)) "right_valve_off" _ _
      calibState4 rfl rfl]
  norm_num [calibState1, calibState2, calibState3, calibState4, applyEntry, calibSegs]
  decide

/-- During [0, 0.1) s the active segment is the first: exactly ValveL is on. -/
lemma calibSegs_at_1 (o : String) (t : ℚ) (ha : 0 ≤ t) (hb : t < 1/10) :
    outputOnAt calibSegs o t = ["ValveL"].contains o := by
  have hf : calibSegs.find? (fun s => decide (s.t0 ≤ t) && decide (t < s.t1)) =
      some ⟨"left_valve_on", 0, 1/10, ["ValveL"]⟩ :=
    List.find?_cons_of_pos _ (by simp only [Bool.and_eq_true, decide_eq_true_eq]; exact ⟨ha, hb⟩)
  simp only [outputOnAt, calibSegs] at hf ⊢
  rw [hf]

/-- During [0.1, 0.6) s the active segment is the second: no output is on. -/
lemma calibSegs_at_2 (o : String) (t : ℚ) (ha : 1/10 ≤ t) (hb : t < 6/10) :
    outputOnAt calibSegs o t = false := by
  have hf : calibSegs.find? (fun s => decide (s.t0 ≤ t) && decide (t < s.t1)) =
      some ⟨"left_valve_off", 1/10, 6/10, []⟩ := by
    rw [calibSegs,
      List.find?_cons_of_neg _
        (by simp only [Bool.and_eq_true, decide_eq_true_eq, not_and]; intro _; linarith),
      List.find?_cons_of_pos _ (by simp only [Bool.and_eq_true, decide_eq_true_eq]; exact ⟨ha, hb⟩)]
  simp only [outputOnAt, calibSegs] at hf ⊢
  rw [hf]
  simp

/-- During [0.6, 0.7) s the active segment is the third: exactly ValveR is on. -/
lemma calibSegs_at_3 (o : String) (t : ℚ) (ha : 6/10 ≤ t) (hb : t < 7/10) :
    outputOnAt calibSegs o t = ["ValveR"].contains o := by
  have hf : calibSegs.find? (fun s => decide (s.t0 ≤ t) && decide (t < s.t1)) =
      some ⟨"right_valve_on", 6/10, 7/10, ["ValveR"]⟩ := by
    rw [calibSegs,
      List.find?_cons_of_neg _
        (by simp only [Bool.and_eq_true, decide_eq_true_eq, not_and]; intro _; linarith),
      List.find?_cons_of_neg _
        (by simp only [Bool.and_eq_true, decide_eq_true_eq, not_and]; intro _; linarith),
      List.find?_cons_of_pos _ (by simp only [Bool.and_eq_true, decide_eq_true_eq]; exact ⟨ha, hb⟩)]
  simp only [outputOnAt, calibSegs] at hf ⊢
  rw [hf]

/-- During [0.7, 1.2) s the active segment is the fourth: no output is on. -/
lemma calibSegs_at_4 (o : String) (t : ℚ) (ha : 7/10 ≤ t) (hb : t < 12/10) :
    outputOnAt calibSegs o t = false := by
  have hf : calibSegs.find? (fun s => decide (s.t0 ≤ t) && decide (t < s.t1)) =
      some ⟨"right_valve_off", 7/10, 12/10, []⟩ := by
    rw [calibSegs,
      List.find?_cons_of_neg _
        (by simp only [Bool.and_eq_true, decide_eq_true_eq, not_and]; intro _; linarith),
      List.find?_cons_of_neg _
        (by simp only [Bool.and_eq_true, decide_eq_true_eq, not_and]; intro _; linarith),
      List.find?_cons_of_neg _
        (by simp only [Bool.and_eq_true, decide_eq_true_eq, not_and]; intro _; linarith),
      List.find?_cons_of_pos _ (by simp only [Bool.and_eq_true, decide_eq_true_eq]; exact ⟨ha, hb⟩)]
  simp only [outputOnAt, calibSegs] at hf ⊢
  rw [hf]
  simp

/-- Below the trial bound, `prepare_next_trial` hands the controller the
matrix rebuilt from the task's current matrix and parameters. -/
lemma prepare_sets_built (ts : TaskState) (n : Nat) (h : n < ts.maxTrials) :
    Effect.set_state_matrix (buildTrialMatrix ts.sm ts.leftValveDuration ts.rightValveDuration
      ts.interValveDelay) ∈ (prepare_next_trial ts n).2 := by
  unfold prepare_next_trial
  dsimp only
  split_ifs <;> simp_all <;> omega

/-- Invariant of the trial loop from any index `idx ≤ N`: the remaining
started trials are exactly the indices idx..N-1, the loop stops with the
report `some N`, and the final task state is stopped and not running. -/
lemma sessionLoop_spec (N : Nat) (hN : 1 ≤ N) :
    ∀ fuel idx ts, ts.maxTrials = N → idx ≤ N → N - idx < fuel →
    startedIndices (sessionLoop fuel ts idx).2.1 = List.range' idx (N - idx) ∧
    (sessionLoop fuel ts idx).2.2 = some N ∧
    (sessionLoop fuel ts idx).1.controller_stopped = true ∧
    (sessionLoop fuel ts idx).1.trials_completed = N ∧
    (sessionLoop fuel ts idx).1.session_running = false := by
  intro fuel
  induction fuel with
  | zero => intro idx ts _ _ hlt; omega
  | succ fuel ih =>
    intro idx ts hmax hle hlt
    by_cases hstop : N ≤ idx
    · have hidx : idx = N := le_antisymm hle hstop
      subst hidx
      have hmem : Effect.controller_stop ∈ (prepare_next_trial ts idx).2 :=
        (prepare_stop_iff ts idx).mpr (le_of_eq hmax)
      have hready : Effect.ready_to_start_trial ∉ (prepare_next_trial ts idx).2 := by
        rw [prepare_ready_iff, hmax]
        omega
      simp only [sessionLoop]
      rw [if_pos hmem]
      refine ⟨?_, ?_, ?_, ?_, ?_⟩
      · simp [startedIndices, hready]
      · simp [session_stopped, prepare_completed_pos ts idx hN]
      · simp [session_stopped, prepare_stopped_of_ge ts idx (le_of_eq hmax)]
      · simp [session_stopped, prepare_completed_pos ts idx hN]
      · simp [session_stopped]
    · push_neg at hstop
      have hnostop : Effect.controller_stop ∉ (prepare_next_trial ts idx).2 := by
        rw [prepare_stop_iff, hmax]
        omega
      have hready : Effect.ready_to_start_trial ∈ (prepare_next_trial ts idx).2 := by
        rw [prepare_ready_iff, hmax]
        omega
      simp only [sessionLoop]
      rw [if_neg hnostop]
      have hmax2 : (prepare_next_trial ts idx).1.maxTrials = N := by
        rw [prepare_maxTrials, hmax]
      obtain ⟨h1, h2, h3, h4, h5⟩ := ih (idx + 1) (prepare_next_trial ts idx).1 hmax2
        (by omega) (by omega)
      refine ⟨?_, h2, h3, h4, h5⟩
      show startedIndices ((idx, (prepare_next_trial ts idx).2) ::
        (sessionLoop fuel (prepare_next_trial ts idx).1 (idx + 1)).2.1) = _
      rw [show N - idx = (N - idx - 1) + 1 from by omega, List.range'_succ]
      simp only [startedIndices, List.filter_cons, List.map_cons]
      rw [if_pos (by simpa using hready)]
      simp only [List.map_cons]
      rw [show (N - idx - 1) = N - (idx + 1) from by omega]
      exact congrArg (idx :: ·) h1

/-- C1: for every configured maxTrials = N ≥ 1, the session requests exactly N
trial definitions — the requests that lead to a started trial carry the
indices 0..N-1 — and on completion of trial N-1 the controller is stopped
with trials_completed reported equal to N. -/
theorem session_trial_count (ts : TaskState) (N : Nat) (hN : 1 ≤ N)
    (hmax : ts.maxTrials = N) :
    startedIndices (runSession ts).2.1 = List.range N ∧
    (runSession ts).2.2 = some N ∧
    (runSession ts).1.controller_stopped = true ∧
    (runSession ts).1.trials_completed = N ∧
    (runSession ts).1.session_running = false := by
  have hmax0 : (start_session ts).maxTrials = N := by
    unfold start_session
    split_ifs <;> simpa using hmax
  obtain ⟨h1, h2, h3, h4, h5⟩ := sessionLoop_spec N hN ((start_session ts).maxTrials + 1) 0
    (start_session ts) hmax0 (by omega) (by omega)
  exact ⟨by simpa [runSession, List.range_eq_range'] using h1, h2, h3, h4, h5⟩

/-- Witness for `session_trial_count`: the concrete two-trial session starts
trials 0 and 1, then stops reporting 2 completed trials. -/
theorem session_trial_count_witness :
    (1 ≤ 2 ∧ tsTwo.maxTrials = 2) ∧
    (startedIndices (runSession tsTwo).2.1 = List.range 2 ∧
     (runSession tsTwo).2.2 = some 2 ∧
     (runSession tsTwo).1.controller_stopped = true ∧
     (runSession tsTwo).1.trials_completed = 2 ∧
     (runSession tsTwo).1.session_running = false) :=
  ⟨⟨by norm_num, rfl⟩, session_trial_count tsTwo 2 (by norm_num) rfl⟩

/-- C2: every trial built with the default parameter values (0.1 s valve
durations, 0.5 s inter-valve delay) hands the controller the four-state
chain left_valve_on → left_valve_off → right_valve_on → right_valve_off →
END linked solely by "Tup" transitions; its emulated run asserts ValveL
exactly during [0, 0.1) s, clears both valves during [0.1, 0.6) s, asserts
ValveR during [0.6, 0.7) s, clears both during [0.7, 1.2) s, and reaches END
at t = 1.2 s. -/
theorem default_params_trial_timeline (ts : TaskState) (n : Nat) (hn : n < ts.maxTrials)
    (hl : ts.leftValveDuration = 1/10) (hr : ts.rightValveDuration = 1/10)
    (hd : ts.interValveDelay = 1/2) :
    ∃ m, Effect.set_state_matrix m ∈ (prepare_next_trial ts n).2 ∧
      m.states.map (fun s => (s.name, s.transitions)) =
        [("left_valve_on", [("Tup", "left_valve_off")]),
         ("left_valve_off", [("Tup", "right_valve_on")]),
         ("right_valve_on", [("Tup", "right_valve_off")]),
         ("right_valve_off", [("Tup", "END")])] ∧
      (∀ t : ℚ, 0 ≤ t → t < 1/10 → outputOnAt (runMatrix 10 m).1 "ValveL" t = true ∧
        outputOnAt (runMatrix 10 m).1 "ValveR" t = false) ∧
      (∀ t : ℚ, 1/10 ≤ t → t < 6/10 → outputOnAt (runMatrix 10 m).1 "ValveL" t = false ∧
        outputOnAt (runMatrix 10 m).1 "ValveR" t = false) ∧
      (∀ t : ℚ, 6/10 ≤ t → t < 7/10 → outputOnAt (runMatrix 10 m).1 "ValveR" t = true ∧
        outputOnAt (runMatrix 10 m).1 "ValveL" t = false) ∧
      (∀ t : ℚ, 7/10 ≤ t → t < 12/10 → outputOnAt (runMatrix 10 m).1 "ValveL" t = false ∧
        outputOnAt (runMatrix 10 m).1 "ValveR" t = false) ∧
      (runMatrix 10 m).2 = (12/10, true) := by
  refine ⟨buildTrialMatrix ts.sm (1/10) (1/10) (1/2), ?_, rfl, ?_, ?_, ?_, ?_, ?_⟩
  · have h := prepare_sets_built ts n hn
    rwa [hl, hr, hd] at h
  · intro t ha hb
    rw [calib_run_eq]
    show outputOnAt calibSegs "ValveL" t = true ∧ outputOnAt calibSegs "ValveR" t = false
    rw [calibSegs_at_1 "ValveL" t ha hb, calibSegs_at_1 "ValveR" t ha hb]
    exact ⟨rfl, rfl⟩
  · intro t ha hb
    rw [calib_run_eq]
    show outputOnAt calibSegs "ValveL" t = false ∧ outputOnAt calibSegs "ValveR" t = false
    rw [calibSegs_at_2 "ValveL" t ha hb, calibSegs_at_2 "ValveR" t ha hb]
    exact ⟨rfl, rfl⟩
  · intro t ha hb
    rw [calib_run_eq]
    show outputOnAt calibSegs "ValveR" t = true ∧ outputOnAt calibSegs "ValveL" t = false
    rw [calibSegs_at_3 "ValveR" t ha hb, calibSegs_at_3 "ValveL" t ha hb]
    exact ⟨rfl, rfl⟩
  · intro t ha hb
    rw [calib_run_eq]
    show outputOnAt calibSegs "ValveL" t = false ∧ outputOnAt calibSegs "ValveR" t = false
    rw [calibSegs_at_4 "ValveL" t ha hb, calibSegs_at_4 "ValveR" t ha hb]
    exact ⟨rfl, rfl⟩
  · rw [calib_run_eq]

/-- Witness for `default_params_trial_timeline` at the freshly constructed
task, whose parameters are the defaults, preparing trial 0. -/
theorem default_params_trial_timeline_witness :
    (0 < tsDemo.maxTrials ∧ tsDemo.leftValveDuration = 1/10 ∧
     tsDemo.rightValveDuration = 1/10 ∧ tsDemo.interValveDelay = 1/2) ∧
    (∃ m, Effect.set_state_matrix m ∈ (prepare_next_trial tsDemo 0).2 ∧
      m.states.map (fun s => (s.name, s.transitions)) =
        [("left_valve_on", [("Tup", "left_valve_off")]),
         ("left_valve_off", [("Tup", "right_valve_on")]),
         ("right_valve_on", [("Tup", "right_valve_off")]),
         ("right_valve_off", [("Tup", "END")])] ∧
      (∀ t : ℚ, 0 ≤ t → t < 1/10 → outputOnAt (runMatrix 10 m).1 "ValveL" t = true ∧
        outputOnAt (runMatrix 10 m).1 "ValveR" t = false) ∧
      (∀ t : ℚ, 1/10 ≤ t → t < 6/10 → outputOnAt (runMatrix 10 m).1 "ValveL" t = false ∧
        outputOnAt (runMatrix 10 m).1 "ValveR" t = false) ∧
      (∀ t : ℚ, 6/10 ≤ t → t < 7/10 → outputOnAt (runMatrix 10 m).1 "ValveR" t = true ∧
        outputOnAt (runMatrix 10 m).1 "ValveL" t = false) ∧
      (∀ t : ℚ, 7/10 ≤ t → t < 12/10 → outputOnAt (runMatrix 10 m).1 "ValveL" t = false ∧
        outputOnAt (runMatrix 10 m).1 "ValveR" t = false) ∧
      (runMatrix 10 m).2 = (12/10, true)) :=
  ⟨⟨by decide, rfl, rfl, rfl⟩, default_params_trial_timeline tsDemo 0 (by decide) rfl rfl rfl⟩

/-- C3: every trial-building invocation of `prepare_next_trial` resets the
matrix before adding states, so the matrix handed to the controller holds
exactly the four states of that build, with no residue of any prior trial. -/
theorem trial_build_resets_matrix (ts : TaskState) (n : Nat) (h : n < ts.maxTrials) :
    (prepare_next_trial ts n).1.sm.states =
      [⟨"left_valve_on", ts.leftValveDuration, [("Tup", "left_valve_off")],
        ["ValveL"], ["ValveR"]⟩,
       ⟨"left_valve_off", ts.interValveDelay, [("Tup", "right_valve_on")],
        [], ["ValveL", "ValveR"]⟩,
       ⟨"right_valve_on", ts.rightValveDuration, [("Tup", "right_valve_off")],
        ["ValveR"], ["ValveL"]⟩,
       ⟨"right_valve_off", ts.interValveDelay, [("Tup", "END")],
        [], ["ValveL", "ValveR"]⟩] ∧
    Effect.set_state_matrix (prepare_next_trial ts n).1.sm ∈ (prepare_next_trial ts n).2 := by
  unfold prepare_next_trial
  dsimp only
  split_ifs <;>
    simp_all [buildTrialMatrix, StateMatrix.reset_transitions, StateMatrix.add_state] <;> omega

/-- Witness for `trial_build_resets_matrix` at the fresh task preparing
trial 0. -/
theorem trial_build_resets_matrix_witness :
    0 < tsDemo.maxTrials ∧
    ((prepare_next_trial tsDemo 0).1.sm.states =
      [⟨"left_valve_on", tsDemo.leftValveDuration, [("Tup", "left_valve_off")],
        ["ValveL"], ["ValveR"]⟩,
       ⟨"left_valve_off", tsDemo.interValveDelay, [("Tup", "right_valve_on")],
        [], ["ValveL", "ValveR"]⟩,
       ⟨"right_valve_on", tsDemo.rightValveDuration, [("Tup", "right_valve_off")],
        ["ValveR"], ["ValveL"]⟩,
       ⟨"right_valve_off", tsDemo.interValveDelay, [("Tup", "END")],
        [], ["ValveL", "ValveR"]⟩] ∧
    Effect.set_state_matrix (prepare_next_trial tsDemo 0).1.sm ∈ (prepare_next_trial tsDemo 0).2) :=
  ⟨by decide, trial_build_resets_matrix tsDemo 0 (by decide)⟩

/-- C4: in every matrix built by `prepare_next_trial`, each transition label
is "Tup" and each target is "END" or a state of the same build; with the two
valves among the declared outputs, finalize-time validation succeeds, so the
configuration-error branch is unreachable for these matrices. -/
theorem trial_matrix_finalize_ok (sm : StateMatrix) (l r d : ℚ)
    (hL : "ValveL" ∈ sm.outputs) (hR : "ValveR" ∈ sm.outputs) :
    (∀ st ∈ (buildTrialMatrix sm l r d).states, ∀ tr ∈ st.transitions,
      tr.1 = "Tup" ∧
        (tr.2 = "END" ∨ tr.2 ∈ (buildTrialMatrix sm l r d).states.map SMState.name)) ∧
    (buildTrialMatrix sm l r d).finalizeOk = true := by
  constructor
  · intro st hst tr htr
    simp [buildTrialMatrix, StateMatrix.reset_transitions, StateMatrix.add_state] at hst
    rcases hst with h | h | h | h <;> subst h <;> simp_all [buildTrialMatrix,
      StateMatrix.reset_transitions, StateMatrix.add_state]
  · simp [StateMatrix.finalizeOk, buildTrialMatrix, StateMatrix.reset_transitions,
      StateMatrix.add_state, List.contains, List.elem_eq_mem, hL, hR]

/-- Witness for `trial_matrix_finalize_ok` at the fresh task's matrix and the
default durations. -/
theorem trial_matrix_finalize_ok_witness :
    ("ValveL" ∈ tsDemo.sm.outputs ∧ "ValveR" ∈ tsDemo.sm.outputs) ∧
    ((∀ st ∈ (buildTrialMatrix tsDemo.sm (1/10) (1/10) (1/2)).states, ∀ tr ∈ st.transitions,
      tr.1 = "Tup" ∧
        (tr.2 = "END" ∨
          tr.2 ∈ (buildTrialMatrix tsDemo.sm (1/10) (1/10) (1/2)).states.map SMState.name)) ∧
    (buildTrialMatrix tsDemo.sm (1/10) (1/10) (1/2)).finalizeOk = true) :=
  ⟨⟨by decide, by decide⟩,
    trial_matrix_finalize_ok tsDemo.sm (1/10) (1/10) (1/2) (by decide) (by decide)⟩

/-- C5: in every state added by the trial build, the outputs asserted on
entry and the outputs cleared on entry are disjoint. -/
theorem trial_states_outputs_disjoint (sm : StateMatrix) (l r d : ℚ) (st : SMState)
    (hst : st ∈ (buildTrialMatrix sm l r d).states) :
    st.outputsOn.Disjoint st.outputsOff := by
  simp [buildTrialMatrix, StateMatrix.reset_transitions, StateMatrix.add_state] at hst
  rcases hst with h | h | h | h <;> subst h <;> intro a ha hb <;> simp_all

/-- Witness for `trial_states_outputs_disjoint` at the first state of a
default-parameter build. -/
theorem trial_states_outputs_disjoint_witness :
    calibState1 ∈ (buildTrialMatrix tsDemo.sm (1/10) (1/10) (1/2)).states ∧
    calibState1.outputsOn.Disjoint calibState1.outputsOff :=
  ⟨List.mem_cons_self _ _,
    trial_states_outputs_disjoint tsDemo.sm (1/10) (1/10) (1/2) calibState1
      (List.mem_cons_self _ _)⟩

/-- C6: once the requested index reaches maxTrials, `prepare_next_trial`
stops the controller and returns without setting a state matrix and without
acknowledging readiness, so no trial at such an index is ever started. -/
theorem stop_branch_no_trial (ts : TaskState) (n : Nat) (h : ts.maxTrials ≤ n) :
    (prepare_next_trial ts n).1.controller_stopped = true ∧
    Effect.controller_stop ∈ (prepare_next_trial ts n).2 ∧
    (prepare_next_trial ts n).1.sm = ts.sm ∧
    (∀ m : StateMatrix, Effect.set_state_matrix m ∉ (prepare_next_trial ts n).2) ∧
    Effect.ready_to_start_trial ∉ (prepare_next_trial ts n).2 := by
  unfold prepare_next_trial
  dsimp only
  split_ifs <;> simp_all

/-- Witness for `stop_branch_no_trial` at the fresh task asked for trial 100. -/
theorem stop_branch_no_trial_witness :
    tsDemo.maxTrials ≤ 100 ∧
    ((prepare_next_trial tsDemo 100).1.controller_stopped = true ∧
     Effect.controller_stop ∈ (prepare_next_trial tsDemo 100).2 ∧
     (prepare_next_trial tsDemo 100).1.sm = tsDemo.sm ∧
     (∀ m : StateMatrix, Effect.set_state_matrix m ∉ (prepare_next_trial tsDemo 100).2) ∧
     Effect.ready_to_start_trial ∉ (prepare_next_trial tsDemo 100).2) :=
  ⟨by decide, stop_branch_no_trial tsDemo 100 (by decide)⟩

/-- C7: starting a session from the not-running state arms the
session-duration ceiling at 3600 s, marks the session running, and resets
the completed-trial count to 0. -/
theorem start_session_arms (ts : TaskState) (h : ts.session_running = false) :
    (start_session ts).session_duration = some 3600 ∧
    (start_session ts).session_running = true ∧
    (start_session ts).trials_completed = 0 := by
  simp [start_session, h]

/-- Witness for `start_session_arms` at the fresh task. -/
theorem start_session_arms_witness :
    tsDemo.session_running = false ∧
    ((start_session tsDemo).session_duration = some 3600 ∧
     (start_session tsDemo).session_running = true ∧
     (start_session tsDemo).trials_completed = 0) :=
  ⟨rfl, start_session_arms tsDemo rfl⟩

/-- C8: below the trial bound, the collaborator calls of
`prepare_next_trial` end with setting the state matrix immediately followed
by the readiness acknowledgment, and no acknowledgment precedes the
matrix hand-off. -/
theorem matrix_set_before_ready (ts : TaskState) (n : Nat) (h : n < ts.maxTrials) :
    ∃ k m, ((prepare_next_trial ts n).2).drop k =
        [Effect.set_state_matrix m, Effect.ready_to_start_trial] ∧
      Effect.ready_to_start_trial ∉ ((prepare_next_trial ts n).2).take k := by
  unfold prepare_next_trial
  dsimp only
  split_ifs <;>
    first
      | omega
      | exact ⟨1, _, rfl, by simp⟩
      | exact ⟨0, _, rfl, by simp⟩

/-- Witness for `matrix_set_before_ready` at the fresh task preparing
trial 0. -/
theorem matrix_set_before_ready_witness :
    0 < tsDemo.maxTrials ∧
    (∃ k m, ((prepare_next_trial tsDemo 0).2).drop k =
        [Effect.set_state_matrix m, Effect.ready_to_start_trial] ∧
      Effect.ready_to_start_trial ∉ ((prepare_next_trial tsDemo 0).2).take k) :=
  ⟨by decide, matrix_set_before_ready tsDemo 0 (by decide)⟩

/-- C9: starting a session while one is already running changes nothing:
the whole task state, in particular the running flag, the completed-trial
count, and the configured session duration, is left untouched. -/
theorem start_session_noop (ts : TaskState) (h : ts.session_running = true) :
    start_session ts = ts := by
  simp [start_session, h]

/-- Witness for `start_session_noop` at the running demo task. -/
theorem start_session_noop_witness :
    tsRun.session_running = true ∧ start_session tsRun = tsRun :=
  ⟨rfl, start_session_noop tsRun rfl⟩

/-- C10: preparing trial 0 leaves the completed-trial count and the
parameter history untouched and records nothing, while preparing any trial
n > 0 records history exactly once, for trial n - 1, and sets the
completed-trial count to n. -/
theorem history_tracking (ts : TaskState) (n : Nat) (hn : 0 < n) :
    (prepare_next_trial ts 0).1.trials_completed = ts.trials_completed ∧
    (prepare_next_trial ts 0).1.history = ts.history ∧
    ((prepare_next_trial ts 0).2.countP isHistoryCall) = 0 ∧
    Effect.update_history (n - 1) ∈ (prepare_next_trial ts n).2 ∧
    ((prepare_next_trial ts n).2.countP isHistoryCall) = 1 ∧
    (prepare_next_trial ts n).1.trials_completed = n ∧
    (prepare_next_trial ts n).1.history = ts.history ++ [n - 1] := by
  unfold prepare_next_trial
  dsimp only
  split_ifs <;> simp_all [List.countP_append, List.countP_cons, List.countP_nil, isHistoryCall]

/-- Witness for `history_tracking` at the fresh task and trial 3. -/
theorem history_tracking_witness :
    0 < 3 ∧
    ((prepare_next_trial tsDemo 0).1.trials_completed = tsDemo.trials_completed ∧
     (prepare_next_trial tsDemo 0).1.history = tsDemo.history ∧
     ((prepare_next_trial tsDemo 0).2.countP isHistoryCall) = 0 ∧
     Effect.update_history (3 - 1) ∈ (prepare_next_trial tsDemo 3).2 ∧
     ((prepare_next_trial tsDemo 3).2.countP isHistoryCall) = 1 ∧
     (prepare_next_trial tsDemo 3).1.trials_completed = 3 ∧
     (prepare_next_trial tsDemo 3).1.history = tsDemo.history ++ [3 - 1]) :=
  ⟨by norm_num, history_tracking tsDemo 3 (by norm_num)⟩

end WaterCalibration
